import Mathlib

/-!
Shallow embedding of `src/selenium/google_maps_scraper.py`.

The scraper's pure logic (parsing, deduplication, sorting, aggregation,
control flow of the scroll loop and of the per-candidate extraction loop)
is translated into executable Lean definitions.  Browser effects are
abstracted into explicit inputs:

* the feed's behaviour during the scroll loop is a stream
  `counts : Nat → Nat` giving the number of `a[href*="/maps/place/"]`
  cards measured at each iteration;
* the rendered anchors at collection time are a `List (Option String)`
  (`none` models an anchor whose `get_attribute("href")` raised
  `StaleElementReferenceException` or returned no value);
* each detail page is a `DetailPage` record of per-element outcomes
  (`none` models `NoSuchElementException` / a `WebDriverWait` timeout).

Python `float` ratings are modelled as `ℚ`: the ratings handled by the
program are short decimal numerals, and no claim depends on binary
floating-point rounding.
-/

/-- Data model of the `Restaurant` dataclass (source lines 47–57), with the
declared per-field defaults.  `rating : Optional[float]` becomes
`Option ℚ`. -/
structure Restaurant where
  name : String := "N/A"
  address : String := "N/A"
  phone : String := "N/A"
  rating : Option ℚ := none
  review_count : ℕ := 0
  website : String := "N/A"
  cuisine : String := "N/A"
  maps_url : String := "N/A"
deriving DecidableEq, Repr

/-- Embedding of `parse_review_count` (source lines 119–125):
`re.sub(r"[^\d]", "", raw)` keeps exactly the digit characters in order and
`int(digits) if digits else 0` reads them in base 10 (`0` on the empty
string).  The fold computes that base-10 value, and is `0` on no digits. -/
def parse_review_count (raw : String) : ℕ :=
  (raw.data.filter Char.isDigit).foldl (fun n c => 10 * n + (c.toNat - 48)) 0

/-! ## The scroll loop (source lines 205–227)

State carried across iterations: `last_count` and `stall_counter`,
initialised to `0`.  Each iteration measures the current card count,
then compares it with `last_count`: on equality `stall_counter` is
incremented, otherwise `stall_counter` is reset to `0` and `last_count`
becomes the measured count. -/

/-- RunState of the scroll loop: `last_count` and `stall_counter`
(source lines 206–207). -/
structure ScrollState where
  lastCount : ℕ
  stall : ℕ
deriving DecidableEq, Repr

/-- One iteration body of the scroll loop (source lines 222–227): compare
the measured `current` count with `last_count`; equal → stall counter
increments, different → stall counter resets and the baseline is updated. -/
def scroll_step (current : ℕ) (s : ScrollState) : ScrollState :=
  if current = s.lastCount then ⟨s.lastCount, s.stall + 1⟩ else ⟨current, 0⟩

/-- State of the scroll loop after consuming the first `n` measurements of
the stream `counts` (initial state `last_count = 0`, `stall_counter = 0`,
source lines 206–207). -/
def scroll_run (counts : ℕ → ℕ) : ℕ → ScrollState
  | 0 => ⟨0, 0⟩
  | n + 1 => scroll_step (counts n) (scroll_run counts n)

/-- The `while` guard of the scroll loop (source line 209):
`len(results) < max_results and stall_counter < 5`. -/
def scroll_guard (resultsLen maxResults : ℕ) (s : ScrollState) : Prop :=
  resultsLen < maxResults ∧ s.stall < 5

instance (r m : ℕ) (s : ScrollState) : Decidable (scroll_guard r m s) :=
  decidable_of_iff (r < m ∧ s.stall < 5) Iff.rfl

/-- The guard as actually evaluated during the loop: `results` receives no
append before or inside the scroll loop (the first `results.append` is at
source line 333, after the loop), so `len(results)` is `0` at every guard
check. -/
def scroll_continues (maxResults : ℕ) (s : ScrollState) : Prop :=
  scroll_guard 0 maxResults s

instance (m : ℕ) (s : ScrollState) : Decidable (scroll_continues m s) :=
  inferInstanceAs (Decidable (scroll_guard 0 m s))

/-- The scroll loop exits after consuming exactly `n` measurements: the
guard held before each of the `n` iterations and fails at state `n`. -/
def scroll_terminates_at (counts : ℕ → ℕ) (maxResults n : ℕ) : Prop :=
  (∀ i, i < n → scroll_continues maxResults (scroll_run counts i)) ∧
  ¬ scroll_continues maxResults (scroll_run counts n)

instance (counts : ℕ → ℕ) (m n : ℕ) : Decidable (scroll_terminates_at counts m n) :=
  inferInstanceAs (Decidable (_ ∧ _))

/-! ## Candidate collection (source lines 235–248) -/

/-- Embedding of the URL-collection loop (source lines 235–247).  Each
rendered anchor contributes `some href` (the value of
`a.get_attribute("href")`), or `none` when the anchor went stale or had no
href.  The Python guard `if href and href not in seen` admits an href that
is truthy (non-empty) and unseen; `seen` is the mutable set, `place_urls`
the accumulated list. -/
def collect_urls : List (Option String) → List String → List String
  | [], _ => []
  | none :: rest, seen => collect_urls rest seen
  | some href :: rest, seen =>
    if href ≠ "" ∧ href ∉ seen then href :: collect_urls rest (href :: seen)
    else collect_urls rest seen

/-- Embedding of `place_urls = place_urls[:max_results]` (source line 248):
the deduplicated list is truncated to `max_results` afterwards. -/
def collect_candidates (anchors : List (Option String)) (maxResults : ℕ) : List String :=
  (collect_urls anchors []).take maxResults

/-- The raw href values in rendered order, with stale/absent anchors and
falsy (empty) hrefs removed — the reference list for "first-seen order". -/
def hrefsOf (anchors : List (Option String)) : List String :=
  (anchors.filterMap id).filter (fun s => s ≠ "")

/-! ## Per-candidate extraction (source lines 251–341) -/

/-- Outcome of rendering one detail page, one component per extraction
site in the source:

* `navFails`: `driver.get(place_url)` (source line 257) raised
  `TimeoutException` or `StaleElementReferenceException`, which only the
  outer handler (source lines 339–341) catches;
* `nameText`: `some` of `name_el.text` when the `h1` heading appeared
  within the bounded wait (source lines 261–267), `none` when the wait
  timed out (caught locally at lines 268–269);
* `ratingEl`: outer `none` models `NoSuchElementException` on the rating
  element (source lines 278–279); `some v` models a found element whose
  text `parse_rating` (source lines 111–116) parsed to `v` — `parse_rating`
  is modelled by its result, `some` a rational on a well-formed decimal
  numeral and `none` on malformed text;
* the remaining fields are `some` of the element's text / aria-label when
  found, `none` on `NoSuchElementException`. -/
structure DetailPage where
  navFails : Bool
  nameText : Option String
  ratingEl : Option (Option ℚ)
  reviewLabel : Option String
  cuisineText : Option String
  addressText : Option String
  phoneText : Option String
  websiteText : Option String
deriving DecidableEq, Repr

/-- The record built from one successfully navigated detail page
(source lines 252–331): each field gets its extracted value (`.strip()`ed
text, parsed rating, parsed review count) or the value assigned in its own
`except` branch. -/
def build_record (url : String) (p : DetailPage) : Restaurant :=
  { name := (p.nameText.map String.trim).getD "N/A"
    rating := p.ratingEl.join
    review_count := (p.reviewLabel.map parse_review_count).getD 0
    cuisine := (p.cuisineText.map String.trim).getD "N/A"
    address := (p.addressText.map String.trim).getD "N/A"
    phone := (p.phoneText.map String.trim).getD "N/A"
    website := (p.websiteText.map String.trim).getD "N/A"
    maps_url := url }

/-- Processing of one candidate inside the `for` loop (source lines
251–341): a navigation failure reaches the outer `except` and yields no
record (`continue`); otherwise the built record is appended.  Every
field-level failure is already absorbed inside `build_record`. -/
def process_candidate (url : String) (p : DetailPage) : Option Restaurant :=
  if p.navFails then none else some (build_record url p)

/-- The whole extraction loop (source lines 251–341): `results` starts
empty, each successfully processed candidate appends one record, each
failed candidate is skipped and the loop continues. -/
def extract_all : List (String × DetailPage) → List Restaurant
  | [] => []
  | (url, p) :: rest =>
    match process_candidate url p with
    | some r => r :: extract_all rest
    | none => extract_all rest

/-! ## Sorting (source lines 353–364) -/

/-- The sort key `(r.rating is not None, r.rating or 0, r.review_count)`
(source line 362), as a lexicographically ordered triple.  Python compares
tuples lexicographically with `False < True`; `r.rating or 0` is the
rating's value when present (a present `0.0` also yields `0`) and `0`
when absent. -/
def rkey (r : Restaurant) : Bool ×ₗ (ℚ ×ₗ ℕ) :=
  toLex (r.rating.isSome, toLex (r.rating.getD 0, r.review_count))

/-- Embedding of `sort_results` (source lines 353–364):
`sorted(data, key=..., reverse=True)` is a stable sort into descending key
order, i.e. a stable merge sort with `a` before `b` allowed iff
`key b ≤ key a`. -/
def sort_results (data : List Restaurant) : List Restaurant :=
  data.mergeSort (fun a b => decide (rkey b ≤ rkey a))

/-! ## Excel export — summary aggregate and rows (source lines 370–456) -/

/-- Python truthiness of an `Optional[float]` rating as used by
`if r.rating` (source line 451): `None` and `0.0` are falsy, every other
value is truthy. -/
def py_truthy (o : Option ℚ) : Bool :=
  match o with
  | none => false
  | some x => decide (x ≠ 0)

/-- Embedding of `sum(r.rating for r in data if r.rating)`
(source line 451). -/
def sum_ratings (data : List Restaurant) : ℚ :=
  data.foldl (fun s r => if py_truthy r.rating then s + r.rating.getD 0 else s) 0

/-- Embedding of `sum(1 for r in data if r.rating)` (source line 451). -/
def count_rated (data : List Restaurant) : ℕ :=
  data.foldl (fun c r => if py_truthy r.rating then c + 1 else c) 0

/-- Embedding of `avg_rating` (source lines 450–452): the guarded sum
divided by the guarded count floored at `1`. -/
def avg_rating (data : List Restaurant) : ℚ :=
  sum_ratings data / ((max 1 (count_rated data) : ℕ) : ℚ)

/-- One spreadsheet cell: openpyxl receives strings, floats or ints. -/
inductive Cell where
  | str (s : String)
  | num (q : ℚ)
  | nat (n : ℕ)
deriving DecidableEq, Repr

/-- One data row (source lines 409–420): row number, then the record's
fields, with a missing rating rendered as `"N/A"`. -/
def excel_row (idx : ℕ) (r : Restaurant) : List Cell :=
  [Cell.nat idx, Cell.str r.name, Cell.str r.cuisine,
   (match r.rating with | some q => Cell.num q | none => Cell.str "N/A"),
   Cell.nat r.review_count, Cell.str r.address, Cell.str r.phone,
   Cell.str r.website, Cell.str r.maps_url]

/-- The data rows, numbered from 1 (`enumerate(data, start=2)` with
`row_idx - 1` as the displayed number, source lines 409–411). -/
def excel_rows : ℕ → List Restaurant → List (List Cell)
  | _, [] => []
  | i, r :: rest => excel_row i r :: excel_rows (i + 1) rest

/-- The content of the produced workbook: header row, data rows, and the
trailing summary row `("Total", len(data), _, round(avg, 2))` (source
lines 379–453).  `summaryMean` holds the computed mean; the 2-decimal
display rounding of the cell value is presentation only. -/
structure Report where
  headers : List String
  rows : List (List Cell)
  summaryLabel : String
  summaryCount : ℕ
  summaryMean : ℚ
deriving DecidableEq, Repr

/-- Embedding of `export_to_excel`'s content (source lines 370–456),
keeping the cell values and dropping the pure styling (fonts, fills,
borders, widths). -/
def export_report (data : List Restaurant) : Report :=
  { headers := ["#", "Name", "Cuisine", "Rating", "Reviews",
                "Address", "Phone", "Website", "Google Maps URL"]
    rows := excel_rows 1 data
    summaryLabel := "Total"
    summaryCount := data.length
    summaryMean := avg_rating data }

/-- Embedding of `main` after the scrape stage (source lines 468–483):
`if not raw_data: return` exits before sorting and exporting, so an empty
catalog produces no artifact; otherwise the sorted catalog is exported. -/
def main_run (raw : List Restaurant) : Option Report :=
  if raw.isEmpty then none else some (export_report (sort_results raw))

/-! ## Scroll-loop theorems -/

/-- Whenever the scroll loop exits (with a positive `max_results`, as in
every configured run), it exits because the stall counter reached `5`:
the measured card count plays no role in the guard, which compares
`len(results) = 0` against `max_results`. -/
theorem scroll_exit_only_by_stall (counts : ℕ → ℕ) (m n : ℕ) (hm : 0 < m)
    (h : scroll_terminates_at counts m n) : (scroll_run counts n).stall = 5 := by
  obtain ⟨halive, hstop⟩ := h
  have hlt : ¬ (scroll_run counts n).stall < 5 := fun hs => hstop ⟨hm, hs⟩
  cases n with
  | zero => exact absurd (by simp [scroll_run]) hlt
  | succ k =>
    have hk : (scroll_run counts k).stall < 5 := (halive k (Nat.lt_succ_self k)).2
    have hstep : scroll_run counts (k + 1) = scroll_step (counts k) (scroll_run counts k) := rfl
    rw [hstep] at hlt ⊢
    by_cases hc : counts k = (scroll_run counts k).lastCount
    · simp only [scroll_step, if_pos hc] at hlt ⊢
      omega
    · simp only [scroll_step, if_neg hc] at hlt ⊢
      omega

/-- Page behaviour exhibiting the broken target check of the scroll loop:
the feed reports 100, 200, 300 cards and then stays at 300, while
`max_results = 60`. -/
def c1_counts : ℕ → ℕ := fun i => if i < 3 then (i + 1) * 100 else 300

/-- C1: the claim says the scroll loop stops as soon as the measured card
count reaches `max_results`.  On `c1_counts` with `max_results = 60` the
very first measurement is `100 ≥ 60`, so the claim predicts exit after 1
iteration; the code instead runs 8 iterations (it keeps scrolling until 5
unchanged measurements) because the guard at source line 209 compares
`len(results)` — still `0` during the loop — with `max_results`, never the
card count.  This contradicts the loop's own comment at source line 205
("keep scrolling until we have enough cards or hit the end"). -/
theorem C1_guard_ignores_card_count :
    scroll_terminates_at c1_counts 60 8 ∧
    ¬ scroll_terminates_at c1_counts 60 1 ∧
    60 ≤ (scroll_run c1_counts 1).lastCount := by decide

/-- Page behaviour refuting C2 as stated: measurements 5, 4, 4, 4, 4, …
never grow after the first one, so the last increase is the first
measurement. -/
def c2_counts : ℕ → ℕ := fun i => if i = 0 then 5 else 4

/-- C2 counterexample: on `c2_counts` every measurement after the first is
non-growing, so the claim ("exactly `stallLimit = 5` consecutive
non-growing measurements after the last increase, never later") predicts
exit after 6 measurements; the code runs 7, because the decrease from 5 to
4 resets the stall counter (source lines 223–227 reset on any change, not
only on growth). -/
theorem C2_counterexample_decrease_resets_stall :
    (∀ i, c2_counts (i + 1) ≤ c2_counts i) ∧
    ¬ scroll_terminates_at c2_counts 60 6 ∧
    scroll_terminates_at c2_counts 60 7 := by
  refine ⟨fun i => ?_, by decide, by decide⟩
  simp only [c2_counts]
  split <;> split <;> omega

/-- C2 amended: if the loop is still alive through measurement `L`, the
measured count changes at measurement `L` (the last change), and every
later measurement equals it, then the loop exits after exactly `L + 6`
measurements: the change resets the stall counter, and exactly
`stallLimit = 5` consecutive unchanged measurements then exhaust it —
never earlier, never later. -/
theorem C2_stall_exactness (counts : ℕ → ℕ) (m L : ℕ) (hm : 0 < m)
    (halive : ∀ i, i ≤ L → scroll_continues m (scroll_run counts i))
    (hchange : counts L ≠ (scroll_run counts L).lastCount)
    (hconst : ∀ i, L < i → counts i = counts L) :
    scroll_terminates_at counts m (L + 6) := by
  have hbase : scroll_run counts (L + 1) = ⟨counts L, 0⟩ := by
    show scroll_step (counts L) (scroll_run counts L) = _
    simp [scroll_step, hchange]
  have hflat : ∀ k, k ≤ 5 → scroll_run counts (L + 1 + k) = ⟨counts L, k⟩ := by
    intro k hk
    induction k with
    | zero => simpa using hbase
    | succ j ih =>
      have hij : scroll_run counts (L + 1 + j) = ⟨counts L, j⟩ := ih (by omega)
      have hstep : scroll_run counts (L + 1 + (j + 1))
          = scroll_step (counts (L + 1 + j)) (scroll_run counts (L + 1 + j)) := rfl
      rw [hstep, hij, hconst (L + 1 + j) (by omega)]
      simp [scroll_step]
  constructor
  · intro i hi
    by_cases hiL : i ≤ L
    · exact halive i hiL
    · have hrep : i = L + 1 + (i - L - 1) := by omega
      refine ⟨hm, ?_⟩
      rw [hrep, hflat (i - L - 1) (by omega)]
      simp only []
      omega
  · intro hc
    have h5 : scroll_run counts (L + 6) = ⟨counts L, 5⟩ := by
      have := hflat 5 le_rfl
      rwa [show L + 1 + 5 = L + 6 by omega] at this
    rw [h5] at hc
    exact absurd hc.2 (by simp)

/-- Witness for the amended C2 at the spec's own scenario: a feed constantly
reporting 5 cards with target 60.  The first measurement establishes the
baseline 5 (a change from the initial 0), the next 5 unchanged measurements
exhaust the stall counter, and the loop stops with 5 as the final measured
count. -/
theorem C2_stall_exactness_witness :
    scroll_terminates_at (fun _ => 5) 60 6 ∧ (scroll_run (fun _ => 5) 6).lastCount = 5 := by
  constructor
  · exact C2_stall_exactness (fun _ => 5) 60 0 (by decide) (by decide) (by decide)
      (fun i _ => rfl)
  · decide

/-! ## Detail-crawler theorems -/

/-- Detail page whose name heading never appears within the bounded wait
(`nameText = none`) while navigation itself succeeded. -/
def c3_page : DetailPage :=
  { navFails := false, nameText := none, ratingEl := some (some 4),
    reviewLabel := some "1,234 reviews", cuisineText := some "Pizza",
    addressText := some "1 Main St", phoneText := some "(212) 000-0000",
    websiteText := some "example.com" }

/-- C3 counterexample: a candidate whose detail page never presents the
name heading within the bounded wait is NOT skipped — the inner handler at
source lines 268–269 absorbs the timeout, sets `name = "N/A"`, and the
record is still appended to the catalog. -/
theorem C3_counterexample_name_timeout_still_recorded :
    c3_page.nameText = none ∧ c3_page.navFails = false ∧
    extract_all [("https://example.org/maps/place/a", c3_page)] ≠ [] ∧
    (build_record "https://example.org/maps/place/a" c3_page).name = "N/A" := by
  refine ⟨rfl, rfl, ?_, rfl⟩
  intro h
  simp [extract_all, process_candidate, c3_page] at h

/-- C3 amended: a candidate is skipped (no record appended, processing
continuing with the rest) exactly when navigation to its detail page
raises; a name-heading timeout is instead absorbed field-locally, the name
defaults to `"N/A"`, and the record is still appended. -/
theorem C3_skip_iff_navigation_failure :
    ∀ (url : String) (p : DetailPage) (rest : List (String × DetailPage)),
      (process_candidate url p = none ↔ p.navFails = true) ∧
      (p.navFails = true → extract_all ((url, p) :: rest) = extract_all rest) ∧
      (p.navFails = false →
        extract_all ((url, p) :: rest) = build_record url p :: extract_all rest) ∧
      (p.navFails = false → p.nameText = none → (build_record url p).name = "N/A") := by
  intro url p rest
  refine ⟨?_, ?_, ?_, ?_⟩
  · cases hnav : p.navFails <;> simp [process_candidate, hnav]
  · intro hnav; simp [extract_all, process_candidate, hnav]
  · intro hnav; simp [extract_all, process_candidate, hnav]
  · intro _ hname; simp [build_record, hname]

/-- Witness for the amended C3: on `c3_page` (navigation fine, name wait
timed out) the record is appended with the defaulted name. -/
theorem C3_skip_iff_navigation_failure_witness :
    extract_all [("u", c3_page)] = build_record "u" c3_page :: extract_all [] ∧
    (build_record "u" c3_page).name = "N/A" :=
  ⟨(C3_skip_iff_navigation_failure "u" c3_page []).2.2.1 rfl,
   (C3_skip_iff_navigation_failure "u" c3_page []).2.2.2 rfl rfl⟩

/-- C6: every field of a built record is either the successfully extracted
value or its declared default; each field depends only on its own page
component, so one field's absence or malformed content never changes
another field; and once navigation succeeded the record is emitted whatever
the field outcomes (in particular with the identity field defaulted). -/
theorem C6_record_completeness_independence :
    ∀ (url url2 : String) (p q : DetailPage),
      (p.navFails = false → process_candidate url p = some (build_record url p)) ∧
      ((build_record url p).name = "N/A" ∨
        ∃ t, p.nameText = some t ∧ (build_record url p).name = t.trim) ∧
      ((build_record url p).rating = none ∨
        ∃ v, p.ratingEl = some (some v) ∧ (build_record url p).rating = some v) ∧
      ((build_record url p).review_count = 0 ∨
        ∃ s, p.reviewLabel = some s ∧ (build_record url p).review_count = parse_review_count s) ∧
      ((build_record url p).cuisine = "N/A" ∨
        ∃ t, p.cuisineText = some t ∧ (build_record url p).cuisine = t.trim) ∧
      ((build_record url p).address = "N/A" ∨
        ∃ t, p.addressText = some t ∧ (build_record url p).address = t.trim) ∧
      ((build_record url p).phone = "N/A" ∨
        ∃ t, p.phoneText = some t ∧ (build_record url p).phone = t.trim) ∧
      ((build_record url p).website = "N/A" ∨
        ∃ t, p.websiteText = some t ∧ (build_record url p).website = t.trim) ∧
      (build_record url p).maps_url = url ∧
      (p.nameText = q.nameText → (build_record url p).name = (build_record url2 q).name) ∧
      (p.ratingEl = q.ratingEl → (build_record url p).rating = (build_record url2 q).rating) ∧
      (p.reviewLabel = q.reviewLabel →
        (build_record url p).review_count = (build_record url2 q).review_count) ∧
      (p.cuisineText = q.cuisineText →
        (build_record url p).cuisine = (build_record url2 q).cuisine) ∧
      (p.addressText = q.addressText →
        (build_record url p).address = (build_record url2 q).address) ∧
      (p.phoneText = q.phoneText → (build_record url p).phone = (build_record url2 q).phone) ∧
      (p.websiteText = q.websiteText →
        (build_record url p).website = (build_record url2 q).website) := by
  intro url url2 p q
  refine ⟨fun hnav => by simp [process_candidate, hnav], ?_, ?_, ?_, ?_, ?_, ?_, ?_, rfl,
    fun h => by simp [build_record, h], fun h => by simp [build_record, h],
    fun h => by simp [build_record, h], fun h => by simp [build_record, h],
    fun h => by simp [build_record, h], fun h => by simp [build_record, h],
    fun h => by simp [build_record, h]⟩
  · cases hn : p.nameText with
    | none => exact Or.inl (by simp [build_record, hn])
    | some t => exact Or.inr ⟨t, rfl, by simp [build_record, hn]⟩
  · cases hr : p.ratingEl with
    | none => exact Or.inl (by simp [build_record, hr])
    | some v =>
      cases v with
      | none => exact Or.inl (by simp [build_record, hr])
      | some x => exact Or.inr ⟨x, rfl, by simp [build_record, hr]⟩
  · cases hr : p.reviewLabel with
    | none => exact Or.inl (by simp [build_record, hr])
    | some s => exact Or.inr ⟨s, rfl, by simp [build_record, hr]⟩
  · cases hc : p.cuisineText with
    | none => exact Or.inl (by simp [build_record, hc])
    | some t => exact Or.inr ⟨t, rfl, by simp [build_record, hc]⟩
  · cases ha : p.addressText with
    | none => exact Or.inl (by simp [build_record, ha])
    | some t => exact Or.inr ⟨t, rfl, by simp [build_record, ha]⟩
  · cases hp : p.phoneText with
    | none => exact Or.inl (by simp [build_record, hp])
    | some t => exact Or.inr ⟨t, rfl, by simp [build_record, hp]⟩
  · cases hw : p.websiteText with
    | none => exact Or.inl (by simp [build_record, hw])
    | some t => exact Or.inr ⟨t, rfl, by simp [build_record, hw]⟩

/-- Detail page with a mix of failures: malformed rating text, absent
review element, absent address and website, empty cuisine text. -/
def c6_page : DetailPage :=
  { navFails := false, nameText := some " Joe's Pizza ", ratingEl := some none,
    reviewLabel := none, cuisineText := some "", addressText := none,
    phoneText := some "555-0100", websiteText := none }

/-- Witness for C6: despite malformed and missing fields, the record for
`c6_page` is emitted. -/
theorem C6_record_completeness_independence_witness :
    process_candidate "u" c6_page = some (build_record "u" c6_page) :=
  (C6_record_completeness_independence "u" "u" c6_page c6_page).1 rfl

/-- C7: the catalog is exactly the in-order image of the successfully
navigated candidates, its length plus the number of skipped candidates is
the candidate count, and a failing candidate anywhere in the list leaves
the records of all other candidates untouched. -/
theorem C7_partial_failure_isolation :
    (∀ cands : List (String × DetailPage),
        extract_all cands
          = (cands.filter (fun c => !c.2.navFails)).map (fun c => build_record c.1 c.2)) ∧
    (∀ cands : List (String × DetailPage),
        (extract_all cands).length + cands.countP (fun c => c.2.navFails) = cands.length) ∧
    (∀ (pre post : List (String × DetailPage)) (url : String) (p : DetailPage),
        p.navFails = true →
        extract_all (pre ++ (url, p) :: post) = extract_all pre ++ extract_all post) := by
  refine ⟨?_, ?_, ?_⟩
  · intro cands
    induction cands with
    | nil => rfl
    | cons c rest ih =>
      obtain ⟨url, p⟩ := c
      cases hnav : p.navFails <;> simp [extract_all, process_candidate, hnav, ih]
  · intro cands
    induction cands with
    | nil => rfl
    | cons c rest ih =>
      obtain ⟨url, p⟩ := c
      cases hnav : p.navFails <;>
        simp [extract_all, process_candidate, hnav, List.countP_cons] <;> omega
  · intro pre post url p hnav
    induction pre with
    | nil => simp [extract_all, process_candidate, hnav]
    | cons c rest ih =>
      obtain ⟨url2, p2⟩ := c
      cases hnav2 : p2.navFails <;> simp [extract_all, process_candidate, hnav2, ih]

/-- A detail page where everything succeeds, parameterised by name. -/
def ok_page (nm : String) : DetailPage :=
  { navFails := false, nameText := some nm, ratingEl := some (some 4),
    reviewLabel := some "(10)", cuisineText := some "Cafe",
    addressText := some "2 Side St", phoneText := some "555-0000",
    websiteText := some "cafe.example" }

/-- A detail page whose navigation raises `TimeoutException`. -/
def bad_page : DetailPage :=
  { navFails := true, nameText := none, ratingEl := none, reviewLabel := none,
    cuisineText := none, addressText := none, phoneText := none, websiteText := none }

/-- Candidates 1–3 of the 10-candidate scenario. -/
def c7_pre : List (String × DetailPage) :=
  [("u1", ok_page "r1"), ("u2", ok_page "r2"), ("u3", ok_page "r3")]

/-- Candidates 5–10 of the 10-candidate scenario. -/
def c7_post : List (String × DetailPage) :=
  [("u5", ok_page "r5"), ("u6", ok_page "r6"), ("u7", ok_page "r7"),
   ("u8", ok_page "r8"), ("u9", ok_page "r9"), ("u10", ok_page "r10")]

/-- Witness for C7, the claim's own scenario: 10 candidates with item 4
timing out yield the 9 records of items 1–3 and 5–10, in order. -/
theorem C7_partial_failure_isolation_witness :
    extract_all (c7_pre ++ ("u4", bad_page) :: c7_post)
      = extract_all c7_pre ++ extract_all c7_post ∧
    (extract_all (c7_pre ++ ("u4", bad_page) :: c7_post)).length = 9 :=
  ⟨C7_partial_failure_isolation.2.2 c7_pre c7_post "u4" bad_page rfl, by decide⟩

/-! ## Ranking theorems -/

/-- The comparator used by `sort_results` is transitive. -/
theorem rkey_le_trans : ∀ a b c : Restaurant,
    decide (rkey b ≤ rkey a) = true → decide (rkey c ≤ rkey b) = true →
    decide (rkey c ≤ rkey a) = true := by
  intro a b c h1 h2
  simp only [decide_eq_true_eq] at h1 h2 ⊢
  exact le_trans h2 h1

/-- The comparator used by `sort_results` is total. -/
theorem rkey_le_total : ∀ a b : Restaurant,
    (decide (rkey b ≤ rkey a) || decide (rkey a ≤ rkey b)) = true := by
  intro a b
  simp only [Bool.or_eq_true, decide_eq_true_eq]
  exact le_total _ _

/-- C4: `sort_results` permutes the catalog into weakly descending order of
the key `(hasRating, rating, reviewCount)`; in particular every unrated
record comes after every rated one; and for every key value the records
carrying it appear in the output in their original relative order
(stability). -/
theorem C4_rank_ordering_stability :
    ∀ data : List Restaurant,
      (sort_results data).Perm data ∧
      (sort_results data).Pairwise (fun a b => rkey b ≤ rkey a) ∧
      (sort_results data).Pairwise (fun a b => a.rating = none → b.rating = none) ∧
      ∀ k, (sort_results data).filter (fun r => decide (rkey r = k))
            = data.filter (fun r => decide (rkey r = k)) := by
  intro data
  have hsorted : (sort_results data).Pairwise (fun a b => rkey b ≤ rkey a) :=
    (List.sorted_mergeSort rkey_le_trans rkey_le_total data).imp
      (fun h => of_decide_eq_true h)
  refine ⟨List.mergeSort_perm data _, hsorted, ?_, ?_⟩
  · refine hsorted.imp ?_
    intro a b h ha
    cases hb : b.rating with
    | none => rfl
    | some x =>
      exfalso
      rw [show rkey b = toLex (b.rating.isSome, toLex (b.rating.getD 0, b.review_count))
          from rfl,
        show rkey a = toLex (a.rating.isSome, toLex (a.rating.getD 0, a.review_count))
          from rfl, Prod.Lex.le_iff] at h
      rcases h with h | ⟨h, -⟩
      · rw [ha, hb] at h
        exact absurd h (by simp [Bool.lt_iff])
      · rw [ha, hb] at h
        simp at h
  · intro k
    have hmem : ∀ x ∈ data.filter (fun r => decide (rkey r = k)), rkey x = k :=
      fun x hx => of_decide_eq_true (List.mem_filter.mp hx).2
    have hc : (data.filter (fun r => decide (rkey r = k))).Pairwise
        (fun a b => decide (rkey b ≤ rkey a) = true) := by
      refine List.pairwise_of_forall_mem_list ?_
      intro a ha b hb
      rw [decide_eq_true_eq, hmem a ha, hmem b hb]
    have hsub : (data.filter (fun r => decide (rkey r = k))).Sublist (sort_results data) :=
      List.sublist_mergeSort rkey_le_trans rkey_le_total hc (List.filter_sublist data)
    have hperm : ((sort_results data).filter (fun r => decide (rkey r = k))).Perm
        (data.filter (fun r => decide (rkey r = k))) :=
      (List.mergeSort_perm data _).filter _
    have hself : (data.filter (fun r => decide (rkey r = k))).filter
        (fun r => decide (rkey r = k)) = data.filter (fun r => decide (rkey r = k)) :=
      List.filter_eq_self.mpr (fun a ha => by rw [decide_eq_true_eq]; exact hmem a ha)
    have hsub2 : (data.filter (fun r => decide (rkey r = k))).Sublist
        ((sort_results data).filter (fun r => decide (rkey r = k))) := by
      have := hsub.filter (fun r => decide (rkey r = k))
      rwa [hself] at this
    exact (hsub2.eq_of_length hperm.length_eq.symm).symm

/-! ## Candidate-collection theorems -/

/-- Everything the collection loop emits was absent from the seen-set it
started with. -/
theorem mem_collect_not_seen :
    ∀ (anchors : List (Option String)) (seen : List String) (x : String),
      x ∈ collect_urls anchors seen → x ∉ seen := by
  intro anchors
  induction anchors with
  | nil => intro seen x hx; simp [collect_urls] at hx
  | cons a rest ih =>
    intro seen x hx
    cases a with
    | none =>
      rw [collect_urls] at hx
      exact ih seen x hx
    | some h =>
      by_cases hcond : h ≠ "" ∧ h ∉ seen
      · rw [collect_urls, if_pos hcond] at hx
        rcases List.mem_cons.mp hx with rfl | hx2
        · exact hcond.2
        · intro hxs
          exact ih (h :: seen) x hx2 (List.mem_cons_of_mem h hxs)
      · rw [collect_urls, if_neg hcond] at hx
        exact ih seen x hx

/-- Membership in the collection loop's output: exactly the non-empty hrefs
of the rendered anchors that were not already seen. -/
theorem mem_collect_iff :
    ∀ (anchors : List (Option String)) (seen : List String) (x : String),
      x ∈ collect_urls anchors seen ↔ (x ∈ hrefsOf anchors ∧ x ∉ seen) := by
  intro anchors
  induction anchors with
  | nil => intro seen x; simp [collect_urls, hrefsOf]
  | cons a rest ih =>
    intro seen x
    cases a with
    | none =>
      rw [collect_urls]
      simpa [hrefsOf] using ih seen x
    | some h =>
      by_cases hemp : h = ""
      · subst hemp
        rw [collect_urls, if_neg (by simp)]
        simpa [hrefsOf] using ih seen x
      · have hh : hrefsOf (some h :: rest) = h :: hrefsOf rest := by
          simp [hrefsOf, hemp]
        by_cases hs : h ∈ seen
        · rw [collect_urls, if_neg (by simp [hs]), hh]
          rw [ih seen x]
          constructor
          · rintro ⟨h1, h2⟩
            exact ⟨List.mem_cons_of_mem h h1, h2⟩
          · rintro ⟨h1, h2⟩
            rcases List.mem_cons.mp h1 with rfl | h1
            · exact absurd hs h2
            · exact ⟨h1, h2⟩
        · rw [collect_urls, if_pos ⟨hemp, hs⟩, hh]
          constructor
          · intro hx
            rcases List.mem_cons.mp hx with rfl | hx2
            · exact ⟨List.mem_cons_self x _, hs⟩
            · rcases (ih (h :: seen) x).mp hx2 with ⟨h1, h2⟩
              exact ⟨List.mem_cons_of_mem h h1,
                fun hxs => h2 (List.mem_cons_of_mem h hxs)⟩
          · rintro ⟨h1, h2⟩
            rcases List.mem_cons.mp h1 with rfl | h1
            · exact List.mem_cons_self x _
            · by_cases hxh : x = h
              · subst hxh; exact List.mem_cons_self x _
              · exact List.mem_cons_of_mem h
                  ((ih (h :: seen) x).mpr ⟨h1, by simp [hxh, h2]⟩)

/-- The collection loop never emits a URL twice. -/
theorem collect_nodup :
    ∀ (anchors : List (Option String)) (seen : List String),
      (collect_urls anchors seen).Nodup := by
  intro anchors
  induction anchors with
  | nil => intro seen; simp [collect_urls]
  | cons a rest ih =>
    intro seen
    cases a with
    | none => rw [collect_urls]; exact ih seen
    | some h =>
      by_cases hcond : h ≠ "" ∧ h ∉ seen
      · rw [collect_urls, if_pos hcond]
        exact List.nodup_cons.mpr
          ⟨fun hmem => mem_collect_not_seen rest (h :: seen) h hmem
              (List.mem_cons_self h seen), ih (h :: seen)⟩
      · rw [collect_urls, if_neg hcond]
        exact ih seen

/-- The collection loop emits URLs in first-seen order: positions in the
output are strictly increasing in the index of the URL's first occurrence
among the rendered (non-stale, non-empty) hrefs. -/
theorem collect_firstseen :
    ∀ (anchors : List (Option String)) (seen : List String),
      (collect_urls anchors seen).Pairwise
        (fun x y => (hrefsOf anchors).indexOf x < (hrefsOf anchors).indexOf y) := by
  intro anchors
  induction anchors with
  | nil => intro seen; simp [collect_urls]
  | cons a rest ih =>
    intro seen
    cases a with
    | none =>
      rw [collect_urls]
      have hh : hrefsOf (none :: rest) = hrefsOf rest := by simp [hrefsOf]
      rw [hh]
      exact ih seen
    | some h =>
      by_cases hemp : h = ""
      · subst hemp
        rw [collect_urls, if_neg (by simp)]
        have hh : hrefsOf (some "" :: rest) = hrefsOf rest := by simp [hrefsOf]
        rw [hh]
        exact ih seen
      · have hh : hrefsOf (some h :: rest) = h :: hrefsOf rest := by
          simp [hrefsOf, hemp]
        by_cases hs : h ∈ seen
        · rw [collect_urls, if_neg (by simp [hs]), hh]
          refine (ih seen).imp_of_mem ?_
          intro x y hx hy hxy
          have hxh : h ≠ x := fun he =>
            mem_collect_not_seen rest seen x hx (he ▸ hs)
          have hyh : h ≠ y := fun he =>
            mem_collect_not_seen rest seen y hy (he ▸ hs)
          rw [List.indexOf_cons_ne _ hxh, List.indexOf_cons_ne _ hyh]
          exact Nat.succ_lt_succ hxy
        · rw [collect_urls, if_pos ⟨hemp, hs⟩, hh]
          refine List.pairwise_cons.mpr ⟨?_, ?_⟩
          · intro y hy
            have hyh : h ≠ y := fun he =>
              mem_collect_not_seen rest (h :: seen) y hy
                (he ▸ List.mem_cons_self h seen)
            rw [List.indexOf_cons_self, List.indexOf_cons_ne _ hyh]
            exact Nat.succ_pos _
          · refine (ih (h :: seen)).imp_of_mem ?_
            intro x y hx hy hxy
            have hxh : h ≠ x := fun he =>
              mem_collect_not_seen rest (h :: seen) x hx
                (he ▸ List.mem_cons_self h seen)
            have hyh : h ≠ y := fun he =>
              mem_collect_not_seen rest (h :: seen) y hy
                (he ▸ List.mem_cons_self h seen)
            rw [List.indexOf_cons_ne _ hxh, List.indexOf_cons_ne _ hyh]
            exact Nat.succ_lt_succ hxy

/-- C5: the collected candidate list is duplicate-free, at most
`maxResults` long, obtained by truncating the full deduplicated list
(dedup before truncation, so the untruncated list already covers every
rendered non-empty href), and listed in first-seen order. -/
theorem C5_dedup_order_truncation :
    ∀ (anchors : List (Option String)) (maxResults : ℕ),
      (collect_candidates anchors maxResults).Nodup ∧
      (collect_candidates anchors maxResults).length ≤ maxResults ∧
      collect_candidates anchors maxResults = (collect_urls anchors []).take maxResults ∧
      (∀ u, u ∈ collect_urls anchors [] ↔ u ∈ hrefsOf anchors) ∧
      (collect_candidates anchors maxResults).Pairwise
        (fun x y => (hrefsOf anchors).indexOf x < (hrefsOf anchors).indexOf y) := by
  intro anchors maxResults
  refine ⟨(List.take_sublist maxResults _).nodup (collect_nodup anchors []),
    List.length_take_le maxResults _, rfl, ?_, ?_⟩
  · intro u
    simpa using mem_collect_iff anchors [] u
  · exact ((collect_firstseen anchors []).sublist (List.take_sublist maxResults _))

/-! ## Summary-aggregate theorems -/

/-- The guarded running sum of `sum(r.rating for r in data if r.rating)`
equals the sum of the non-null, non-zero ratings. -/
theorem sum_ratings_eq :
    ∀ (data : List Restaurant) (s : ℚ),
      data.foldl (fun s r => if py_truthy r.rating then s + r.rating.getD 0 else s) s
        = s + ((data.filterMap Restaurant.rating).filter (fun x => x ≠ 0)).sum := by
  intro data
  induction data with
  | nil => intro s; simp
  | cons r rest ih =>
    intro s
    rw [List.foldl_cons, ih]
    rcases hr : r.rating with _ | x
    · simp [py_truthy, hr, List.filterMap_cons]
    · by_cases hx : x = 0
      · subst hx
        simp [py_truthy, hr, List.filterMap_cons]
      · simp [py_truthy, hr, hx, List.filterMap_cons, add_assoc]

/-- The guarded running count of `sum(1 for r in data if r.rating)` equals
the number of non-null, non-zero ratings. -/
theorem count_rated_eq :
    ∀ (data : List Restaurant) (c : ℕ),
      data.foldl (fun c r => if py_truthy r.rating then c + 1 else c) c
        = c + ((data.filterMap Restaurant.rating).filter (fun x => x ≠ 0)).length := by
  intro data
  induction data with
  | nil => intro c; simp
  | cons r rest ih =>
    intro c
    rw [List.foldl_cons, ih]
    rcases hr : r.rating with _ | x
    · simp [py_truthy, hr, List.filterMap_cons]
    · by_cases hx : x = 0
      · subst hx
        simp [py_truthy, hr, List.filterMap_cons]
      · simp [py_truthy, hr, hx, List.filterMap_cons]
        omega

/-- Catalog on which the claimed mean and the computed mean differ: one
record carries the non-null rating `0`, the other the rating `4`. -/
def c8_data : List Restaurant := [{ rating := some 0 }, { rating := some 4 }]

/-- The mean as C8 words it: sum of the ratings of all records with a
non-null rating, divided by their number floored at 1. -/
def claim_mean (data : List Restaurant) : ℚ :=
  (data.filterMap Restaurant.rating).sum /
    ((max 1 (data.filterMap Restaurant.rating).length : ℕ) : ℚ)

/-- C8 counterexample: the code filters with Python truthiness
(`if r.rating`, source line 451), which excludes a non-null rating of
`0.0` from both numerator and denominator; on `c8_data` the code computes
`4/1 = 4` while the claimed non-null mean is `(0+4)/2 = 2`. -/
theorem C8_counterexample_zero_rating_excluded :
    avg_rating c8_data = 4 ∧ claim_mean c8_data = 2 ∧
    avg_rating c8_data ≠ claim_mean c8_data := by
  have h1 : avg_rating c8_data = 4 := by
    norm_num [avg_rating, sum_ratings, count_rated, py_truthy, c8_data]
  have h2 : claim_mean c8_data = 2 := by
    norm_num [claim_mean, c8_data, List.filterMap_cons]
  refine ⟨h1, h2, ?_⟩
  rw [h1, h2]
  norm_num

/-- C8 amended: the summary mean is the sum of ratings over records with a
truthy rating (non-null and non-zero) divided by the count of those
records floored at 1; with no truthy rating the mean is `0` rather than a
division-by-zero error. -/
theorem C8_truthy_mean :
    ∀ data : List Restaurant,
      avg_rating data =
        ((data.filterMap Restaurant.rating).filter (fun x => x ≠ 0)).sum /
          ((max 1 ((data.filterMap Restaurant.rating).filter (fun x => x ≠ 0)).length : ℕ) : ℚ) ∧
      ((∀ r ∈ data, py_truthy r.rating = false) → avg_rating data = 0) := by
  intro data
  have h1 : sum_ratings data
      = ((data.filterMap Restaurant.rating).filter (fun x => x ≠ 0)).sum := by
    simpa [sum_ratings] using sum_ratings_eq data 0
  have h2 : count_rated data
      = ((data.filterMap Restaurant.rating).filter (fun x => x ≠ 0)).length := by
    simpa [count_rated] using count_rated_eq data 0
  constructor
  · show sum_ratings data / ((max 1 (count_rated data) : ℕ) : ℚ) = _
    rw [h1, h2]
  · intro hall
    have hnil : (data.filterMap Restaurant.rating).filter (fun x => x ≠ 0) = [] := by
      rw [List.filter_eq_nil_iff]
      intro x hx
      rcases List.mem_filterMap.mp hx with ⟨r, hr, hrx⟩
      have hfalse := hall r hr
      rw [hrx] at hfalse
      simp [py_truthy] at hfalse
      simp [hfalse]
    show sum_ratings data / ((max 1 (count_rated data) : ℕ) : ℚ) = 0
    rw [h1, h2, hnil]
    norm_num

/-- Witness for the amended C8: a catalog whose single record has no
rating yields a mean of `0`. -/
theorem C8_truthy_mean_witness :
    avg_rating [{ rating := none }] = 0 :=
  (C8_truthy_mean [{ rating := none }]).2 (by decide)

/-! ## Review-count parsing theorems -/

/-- Folding base-10 accumulation over a digit list reads the list as a
base-10 numeral. -/
theorem foldl_base10 :
    ∀ (ds : List ℕ) (a : ℕ),
      ds.foldl (fun n d => 10 * n + d) a
        = a * 10 ^ ds.length + Nat.ofDigits 10 ds.reverse := by
  intro ds
  induction ds with
  | nil => intro a; simp [Nat.ofDigits_nil]
  | cons d tl ih =>
    intro a
    rw [List.foldl_cons, ih, List.reverse_cons, Nat.ofDigits_append]
    simp [Nat.ofDigits_singleton, pow_succ]
    ring

/-- C9: `parse_review_count` returns the integer written by the digit
characters of its input, taken in order (the base-10 value of the filtered
digit string), and `0` when the input has no digit; `"(1,234)"` parses to
`1234` and `"no reviews"` to `0`. -/
theorem C9_digit_extraction :
    (∀ raw : String,
        parse_review_count raw
          = Nat.ofDigits 10
              (((raw.data.filter Char.isDigit).map (fun c => c.toNat - 48)).reverse)) ∧
    (∀ raw : String, raw.data.filter Char.isDigit = [] → parse_review_count raw = 0) ∧
    parse_review_count "(1,234)" = 1234 ∧
    parse_review_count "no reviews" = 0 := by
  have hmain : ∀ raw : String,
      parse_review_count raw
        = Nat.ofDigits 10
            (((raw.data.filter Char.isDigit).map (fun c => c.toNat - 48)).reverse) := by
    intro raw
    show (raw.data.filter Char.isDigit).foldl (fun n c => 10 * n + (c.toNat - 48)) 0 = _
    rw [← List.foldl_map (fun c : Char => c.toNat - 48) (fun n d => 10 * n + d)]
    rw [foldl_base10]
    simp
  refine ⟨hmain, ?_, by decide, by decide⟩
  intro raw h
  show (raw.data.filter Char.isDigit).foldl (fun n c => 10 * n + (c.toNat - 48)) 0 = 0
  rw [h]
  rfl

/-- Witness for C9's conditional part at a digit-free input. -/
theorem C9_digit_extraction_witness : parse_review_count "abc" = 0 :=
  C9_digit_extraction.2.1 "abc" (by decide)

/-! ## Entry-point theorems -/

/-- C10: an empty catalog makes `main` return before sorting and before
exporting — no report artifact at all; a non-empty catalog is sorted and
exported. -/
theorem C10_empty_catalog_no_artifact :
    main_run [] = none ∧
    ∀ raw : List Restaurant, raw ≠ [] →
      main_run raw = some (export_report (sort_results raw)) := by
  refine ⟨rfl, ?_⟩
  intro raw h
  unfold main_run
  rw [if_neg (by simp [h])]

/-- Witness for C10: a one-record catalog produces the exported report of
its sorted contents. -/
theorem C10_empty_catalog_no_artifact_witness :
    main_run [{ name := "Solo Diner" }]
      = some (export_report (sort_results [{ name := "Solo Diner" }])) :=
  C10_empty_catalog_no_artifact.2 [{ name := "Solo Diner" }] (by simp)

example : parse_review_count "(1,234)" = 1234 := by decide
example : parse_review_count "no reviews" = 0 := by decide
example : scroll_run (fun _ => 5) 6 = ⟨5, 5⟩ := by decide
example : scroll_terminates_at (fun _ => 5) 60 6 := by decide
example : collect_candidates [some "a", some "b", some "a", none, some "", some "c"] 2 = ["a", "b"] := by decide
example : avg_rating [{ rating := some 0 }, { rating := some 4 }] = 4 := by
  norm_num [avg_rating, sum_ratings, count_rated, py_truthy]
